import Mathlib

/-!
Shallow embedding of the `holiday-event-api-rust` client library
(`src/lib.rs` and `src/model.rs`).

The embedding mirrors the Rust source:
* JSON values are modelled as `Json`, following the representation that
  `serde_json` hands to deserializers: integers are split into the
  unsigned (`numU`, a value below `2 ^ 64` that Rust delivers through
  `visit_u64`) and the negative (`numI`, a value in `[-2 ^ 63, 0)` that
  Rust delivers through `visit_i64`) cases; a floating-point number
  (`numF`) never reaches an integer visitor, so its payload is irrelevant
  to every claim and is not carried.
* Each `Deserialize` implementation from `model.rs` becomes a
  `deserialize` function from `Json`.  The derived struct deserializers
  look fields up by name, treat `Option` fields as `none` when the field
  is missing or `null`, ignore unknown fields, and give the
  `skip_deserializing` field `rate_limit` its `Default` value.  (The
  duplicate-field error that serde raises for an object repeating a key
  is not modelled; no claim depends on it.)
* The request pipeline of `HolidayEventApi::request` becomes
  `send_request`, acting on an already received `HttpResponse` whose
  `body` is `none` when the body text is not syntactically valid JSON.
  Header values are byte lists, as in `reqwest`.
* `reqwest::Client::builder().build()` and `Url::parse` are external
  library calls; `new_internal` takes their outcomes as inputs.
-/

/-- A JSON value as seen by a serde deserializer. -/
inductive Json where
  | null : Json
  | bool (b : Bool) : Json
  | str (s : String) : Json
  /-- A non-negative integer, delivered through `visit_u64`; the JSON
  parser only produces values below `2 ^ 64`. -/
  | numU (n : Nat) : Json
  /-- A negative integer, delivered through `visit_i64`; the JSON parser
  only produces values at least `-2 ^ 63`. -/
  | numI (i : Int) : Json
  /-- A floating-point number; its payload plays no part in any claim. -/
  | numF : Json
  | arr (elems : List Json) : Json
  | obj (fields : List (String × Json)) : Json

/-- `model.rs`: `enum DateOrTimestamp { Date(String), Timestamp(i64) }`. -/
inductive DateOrTimestamp where
  | Date (s : String) : DateOrTimestamp
  | Timestamp (t : Int) : DateOrTimestamp
deriving DecidableEq

/-- The primitive cast `date as i64` applied to a `u64` value: values
below `2 ^ 63` are unchanged, larger ones are reinterpreted as negative
two-complement values. -/
def u64_as_i64 (n : Nat) : Int :=
  if n < 2 ^ 63 then Int.ofNat n else Int.ofNat n - 2 ^ 64

/-- `model.rs` lines 142-180: the custom `Deserialize` for
`DateOrTimestamp`.  The visitor implements `visit_i64`, `visit_u64` and
`visit_str`; every other incoming shape falls to the default visitor
methods, which produce an error. -/
def DateOrTimestamp.deserialize : Json → Except String DateOrTimestamp
  | Json.numI date => Except.ok (DateOrTimestamp.Timestamp date)
  | Json.numU date => Except.ok (DateOrTimestamp.Timestamp (u64_as_i64 date))
  | Json.str date => Except.ok (DateOrTimestamp.Date date)
  | _ => Except.error "invalid type, expected OccurrenceDate as a number or string"

/-- `model.rs`: `struct RateLimit { limit_month: i32, remaining_month: i32 }`. -/
structure RateLimit where
  limit_month : Int
  remaining_month : Int
deriving DecidableEq

/-- `#[derive(Default)]` for `RateLimit`: both fields zero. -/
def RateLimit.default : RateLimit := { limit_month := 0, remaining_month := 0 }

/-- `model.rs`: `struct EventSummary { id, name, url }`. -/
structure EventSummary where
  id : String
  name : String
  url : String
deriving DecidableEq

/-- `model.rs`: `struct AlternateName`. -/
structure AlternateName where
  name : String
  first_year : Option Int
  last_year : Option Int
deriving DecidableEq

/-- `model.rs`: `struct RichText`. -/
structure RichText where
  text : Option String
  html : Option String
  markdown : Option String
deriving DecidableEq

/-- `model.rs`: `struct ImageInfo`. -/
structure ImageInfo where
  small : String
  medium : String
  large : String
deriving DecidableEq

/-- `model.rs`: `struct Pattern`. -/
structure Pattern where
  first_year : Option Int
  last_year : Option Int
  observed : String
  observed_html : String
  observed_markdown : String
  length : Int
deriving DecidableEq

/-- `model.rs`: `struct Occurrence`. -/
structure Occurrence where
  date : DateOrTimestamp
  length : Int
deriving DecidableEq

/-- `model.rs`: `struct FounderInfo`. -/
structure FounderInfo where
  name : String
  url : Option String
  date : Option String
deriving DecidableEq

/-- `model.rs`: `struct Analytics`. -/
structure Analytics where
  overall_rank : Int
  social_rank : Int
  social_shares : Int
  popularity : String
deriving DecidableEq

/-- `model.rs`: `struct Tag`. -/
structure Tag where
  name : String
deriving DecidableEq

/-- `model.rs`: `struct EventInfo`. -/
structure EventInfo where
  id : String
  name : String
  url : String
  adult : Bool
  alternate_names : List AlternateName
  hashtags : Option (List String)
  image : Option ImageInfo
  sources : Option (List String)
  description : Option RichText
  how_to_observe : Option RichText
  patterns : Option (List Pattern)
  occurrences : Option (List Occurrence)
  founders : Option (List FounderInfo)
  analytics : Option Analytics
  tags : Option (List Tag)
deriving DecidableEq

/-- `model.rs`: `struct GetEventsResponse`. -/
structure GetEventsResponse where
  adult : Bool
  date : DateOrTimestamp
  timezone : String
  events : List EventSummary
  multiday_starting : List EventSummary
  multiday_ongoing : List EventSummary
  rate_limit : RateLimit
deriving DecidableEq

/-- `model.rs`: `struct GetEventInfoResponse`. -/
structure GetEventInfoResponse where
  event : EventInfo
  rate_limit : RateLimit
deriving DecidableEq

/-- `model.rs`: `struct SearchResponse`. -/
structure SearchResponse where
  query : String
  adult : Bool
  events : List EventSummary
  rate_limit : RateLimit
deriving DecidableEq

/-- `model.rs`: `struct GetEventsRequest`. -/
structure GetEventsRequest where
  date : Option String
  adult : Option Bool
  timezone : Option String

/-- `model.rs`: `struct GetEventInfoRequest`.  The Rust field `end` is a
reserved word in Lean and is rendered `end_`. -/
structure GetEventInfoRequest where
  id : String
  start : Option Int
  end_ : Option Int

/-- `model.rs`: `struct SearchRequest`. -/
structure SearchRequest where
  query : String
  adult : Option Bool

/-! ### Generic serde decoding primitives -/

/-- Field lookup inside a JSON object, first occurrence. -/
def get_field (fields : List (String × Json)) (name : String) : Option Json :=
  (fields.find? (fun p => p.1 == name)).map (fun p => p.2)

/-- serde `String`: only a JSON string is accepted. -/
def decode_string : Json → Except String String
  | Json.str s => Except.ok s
  | _ => Except.error "invalid type, expected a string"

/-- serde `bool`: only a JSON boolean is accepted. -/
def decode_bool : Json → Except String Bool
  | Json.bool b => Except.ok b
  | _ => Except.error "invalid type, expected a boolean"

/-- serde `i32`: an integer within the `i32` range. -/
def decode_i32 : Json → Except String Int
  | Json.numU n => if n < 2 ^ 31 then Except.ok (Int.ofNat n)
      else Except.error "invalid value, out of range for i32"
  | Json.numI i => if -(2 ^ 31) ≤ i then Except.ok i
      else Except.error "invalid value, out of range for i32"
  | _ => Except.error "invalid type, expected i32"

/-- serde `Vec<T>`: a JSON array decoded elementwise. -/
def decode_list {α : Type} (d : Json → Except String α) : Json → Except String (List α)
  | Json.arr elems => elems.mapM d
  | _ => Except.error "invalid type, expected a sequence"

/-- A required struct field of the serde derive: missing means an error. -/
def field_req {α : Type} (d : Json → Except String α)
    (fields : List (String × Json)) (name : String) : Except String α :=
  match get_field fields name with
  | none => Except.error ("missing field " ++ name)
  | some j => d j

/-- An `Option` struct field of the serde derive: a missing field and an
explicit `null` both give `none`. -/
def field_opt {α : Type} (d : Json → Except String α)
    (fields : List (String × Json)) (name : String) : Except String (Option α) :=
  match get_field fields name with
  | none => Except.ok none
  | some Json.null => Except.ok none
  | some j =>
    match d j with
    | Except.error e => Except.error e
    | Except.ok a => Except.ok (some a)

/-! ### Derived struct deserializers from `model.rs` -/

/-- Derived `Deserialize` for `EventSummary`. -/
def EventSummary.deserialize : Json → Except String EventSummary
  | Json.obj fields => do
    let id ← field_req decode_string fields "id"
    let name ← field_req decode_string fields "name"
    let url ← field_req decode_string fields "url"
    Except.ok { id := id, name := name, url := url }
  | _ => Except.error "invalid type, expected struct EventSummary"

/-- Derived `Deserialize` for `AlternateName`. -/
def AlternateName.deserialize : Json → Except String AlternateName
  | Json.obj fields => do
    let name ← field_req decode_string fields "name"
    let first_year ← field_opt decode_i32 fields "first_year"
    let last_year ← field_opt decode_i32 fields "last_year"
    Except.ok { name := name, first_year := first_year, last_year := last_year }
  | _ => Except.error "invalid type, expected struct AlternateName"

/-- Derived `Deserialize` for `RichText`. -/
def RichText.deserialize : Json → Except String RichText
  | Json.obj fields => do
    let text ← field_opt decode_string fields "text"
    let html ← field_opt decode_string fields "html"
    let markdown ← field_opt decode_string fields "markdown"
    Except.ok { text := text, html := html, markdown := markdown }
  | _ => Except.error "invalid type, expected struct RichText"

/-- Derived `Deserialize` for `ImageInfo`. -/
def ImageInfo.deserialize : Json → Except String ImageInfo
  | Json.obj fields => do
    let small ← field_req decode_string fields "small"
    let medium ← field_req decode_string fields "medium"
    let large ← field_req decode_string fields "large"
    Except.ok { small := small, medium := medium, large := large }
  | _ => Except.error "invalid type, expected struct ImageInfo"

/-- Derived `Deserialize` for `Pattern`. -/
def Pattern.deserialize : Json → Except String Pattern
  | Json.obj fields => do
    let first_year ← field_opt decode_i32 fields "first_year"
    let last_year ← field_opt decode_i32 fields "last_year"
    let observed ← field_req decode_string fields "observed"
    let observed_html ← field_req decode_string fields "observed_html"
    let observed_markdown ← field_req decode_string fields "observed_markdown"
    let length ← field_req decode_i32 fields "length"
    Except.ok {
      first_year := first_year,
      last_year := last_year,
      observed := observed,
      observed_html := observed_html,
      observed_markdown := observed_markdown,
      length := length }
  | _ => Except.error "invalid type, expected struct Pattern"

/-- Derived `Deserialize` for `Occurrence`. -/
def Occurrence.deserialize : Json → Except String Occurrence
  | Json.obj fields => do
    let date ← field_req DateOrTimestamp.deserialize fields "date"
    let length ← field_req decode_i32 fields "length"
    Except.ok { date := date, length := length }
  | _ => Except.error "invalid type, expected struct Occurrence"

/-- Derived `Deserialize` for `FounderInfo`. -/
def FounderInfo.deserialize : Json → Except String FounderInfo
  | Json.obj fields => do
    let name ← field_req decode_string fields "name"
    let url ← field_opt decode_string fields "url"
    let date ← field_opt decode_string fields "date"
    Except.ok { name := name, url := url, date := date }
  | _ => Except.error "invalid type, expected struct FounderInfo"

/-- Derived `Deserialize` for `Analytics`. -/
def Analytics.deserialize : Json → Except String Analytics
  | Json.obj fields => do
    let overall_rank ← field_req decode_i32 fields "overall_rank"
    let social_rank ← field_req decode_i32 fields "social_rank"
    let social_shares ← field_req decode_i32 fields "social_shares"
    let popularity ← field_req decode_string fields "popularity"
    Except.ok {
      overall_rank := overall_rank,
      social_rank := social_rank,
      social_shares := social_shares,
      popularity := popularity }
  | _ => Except.error "invalid type, expected struct Analytics"

/-- Derived `Deserialize` for `Tag`. -/
def Tag.deserialize : Json → Except String Tag
  | Json.obj fields => do
    let name ← field_req decode_string fields "name"
    Except.ok { name := name }
  | _ => Except.error "invalid type, expected struct Tag"

/-- Derived `Deserialize` for `EventInfo`. -/
def EventInfo.deserialize : Json → Except String EventInfo
  | Json.obj fields => do
    let id ← field_req decode_string fields "id"
    let name ← field_req decode_string fields "name"
    let url ← field_req decode_string fields "url"
    let adult ← field_req decode_bool fields "adult"
    let alternate_names ← field_req (decode_list AlternateName.deserialize) fields "alternate_names"
    let hashtags ← field_opt (decode_list decode_string) fields "hashtags"
    let image ← field_opt ImageInfo.deserialize fields "image"
    let sources ← field_opt (decode_list decode_string) fields "sources"
    let description ← field_opt RichText.deserialize fields "description"
    let how_to_observe ← field_opt RichText.deserialize fields "how_to_observe"
    let patterns ← field_opt (decode_list Pattern.deserialize) fields "patterns"
    let occurrences ← field_opt (decode_list Occurrence.deserialize) fields "occurrences"
    let founders ← field_opt (decode_list FounderInfo.deserialize) fields "founders"
    let analytics ← field_opt Analytics.deserialize fields "analytics"
    let tags ← field_opt (decode_list Tag.deserialize) fields "tags"
    Except.ok {
      id := id,
      name := name,
      url := url,
      adult := adult,
      alternate_names := alternate_names,
      hashtags := hashtags,
      image := image,
      sources := sources,
      description := description,
      how_to_observe := how_to_observe,
      patterns := patterns,
      occurrences := occurrences,
      founders := founders,
      analytics := analytics,
      tags := tags }
  | _ => Except.error "invalid type, expected struct EventInfo"

/-- Derived `Deserialize` for `GetEventsResponse`; the field `rate_limit`
is `#[serde(skip_deserializing)]`, so the body never contributes to it
and it is set to `RateLimit.default`. -/
def GetEventsResponse.deserialize : Json → Except String GetEventsResponse
  | Json.obj fields => do
    let adult ← field_req decode_bool fields "adult"
    let date ← field_req DateOrTimestamp.deserialize fields "date"
    let timezone ← field_req decode_string fields "timezone"
    let events ← field_req (decode_list EventSummary.deserialize) fields "events"
    let multiday_starting ← field_req (decode_list EventSummary.deserialize) fields "multiday_starting"
    let multiday_ongoing ← field_req (decode_list EventSummary.deserialize) fields "multiday_ongoing"
    Except.ok {
      adult := adult,
      date := date,
      timezone := timezone,
      events := events,
      multiday_starting := multiday_starting,
      multiday_ongoing := multiday_ongoing,
      rate_limit := RateLimit.default }
  | _ => Except.error "invalid type, expected struct GetEventsResponse"

/-- Derived `Deserialize` for `GetEventInfoResponse`; `rate_limit` is
`#[serde(skip_deserializing)]`. -/
def GetEventInfoResponse.deserialize : Json → Except String GetEventInfoResponse
  | Json.obj fields => do
    let event ← field_req EventInfo.deserialize fields "event"
    Except.ok { event := event, rate_limit := RateLimit.default }
  | _ => Except.error "invalid type, expected struct GetEventInfoResponse"

/-- Derived `Deserialize` for `SearchResponse`; `rate_limit` is
`#[serde(skip_deserializing)]`. -/
def SearchResponse.deserialize : Json → Except String SearchResponse
  | Json.obj fields => do
    let query ← field_req decode_string fields "query"
    let adult ← field_req decode_bool fields "adult"
    let events ← field_req (decode_list EventSummary.deserialize) fields "events"
    Except.ok {
      query := query,
      adult := adult,
      events := events,
      rate_limit := RateLimit.default }
  | _ => Except.error "invalid type, expected struct SearchResponse"

/-! ### The `RateLimited` trait of `model.rs` -/

/-- `impl RateLimited for GetEventsResponse`. -/
def GetEventsResponse.set_rate_limit (self : GetEventsResponse) (rate_limit : RateLimit) :
    GetEventsResponse :=
  { self with rate_limit := rate_limit }

/-- `impl RateLimited for GetEventInfoResponse`. -/
def GetEventInfoResponse.set_rate_limit (self : GetEventInfoResponse) (rate_limit : RateLimit) :
    GetEventInfoResponse :=
  { self with rate_limit := rate_limit }

/-- `impl RateLimited for SearchResponse`. -/
def SearchResponse.set_rate_limit (self : SearchResponse) (rate_limit : RateLimit) :
    SearchResponse :=
  { self with rate_limit := rate_limit }

/-! ### Query parameters and operations (`lib.rs`) -/

/-- `HashMap::insert`: replace the value under an existing key, otherwise
add the pair.  The Rust `HashMap` has no observable order; this model
keeps insertion order, and the claims only speak about key lookup. -/
def mapInsert (m : List (String × String)) (k v : String) : List (String × String) :=
  if m.any (fun p => p.1 == k) then m.map (fun p => if p.1 == k then (k, v) else p)
  else m ++ [(k, v)]

/-- `HashMap::get` on the string map. -/
def mapGet (m : List (String × String)) (k : String) : Option String :=
  (m.find? (fun p => p.1 == k)).map (fun p => p.2)

/-- Rust `bool::to_string()`. -/
def rust_bool_to_string (b : Bool) : String :=
  if b then "true" else "false"

/-- `lib.rs` lines 53-69, `get_events` up to the call of `request`: the
result is the `(path, query parameters)` pair handed to `request`
(`get_events` performs no validation, so it always reaches the network
call). -/
def get_events (request : GetEventsRequest) : Except String (String × List (String × String)) :=
  let params := mapInsert [] "adult" (rust_bool_to_string (request.adult.getD false))
  let params :=
    match request.timezone with
    | some tz => mapInsert params "timezone" tz
    | none => params
  let params :=
    match request.date with
    | some date => mapInsert params "date" date
    | none => params
  Except.ok ("events", params)

/-- `lib.rs` lines 72-91, `get_event_info` up to the call of `request`:
an empty `id` is rejected before anything else happens; otherwise the
result is the `(path, query parameters)` pair handed to `request`. -/
def get_event_info (request : GetEventInfoRequest) :
    Except String (String × List (String × String)) :=
  if request.id = "" then Except.error "Event id is required."
  else
    let params := mapInsert [] "id" request.id
    let params :=
      match request.start with
      | some start => mapInsert params "start" (toString start)
      | none => params
    let params :=
      match request.end_ with
      | some e => mapInsert params "end" (toString e)
      | none => params
    Except.ok ("event", params)

/-- `lib.rs` lines 94-108, `search` up to the call of `request`: an empty
`query` is rejected before anything else happens; otherwise the result is
the `(path, query parameters)` pair handed to `request`. -/
def search (request : SearchRequest) : Except String (String × List (String × String)) :=
  if request.query = "" then Except.error "Search query is required."
  else
    let params := mapInsert (mapInsert [] "query" request.query)
      "adult" (rust_bool_to_string (request.adult.getD false))
    Except.ok ("search", params)

/-! ### Client construction (`lib.rs` lines 19-50) -/

/-- The struct `HolidayEventApi`, holding the configured transport and
the base URL.  The transport and URL types come from external crates and
are type parameters of the model. -/
structure HolidayEventApi (Client Url : Type) where
  client : Client
  base_url : Url

/-- `http::HeaderValue` byte validity, used by `HeaderValue::try_from`:
every byte must be at least 32 and not 127, or a horizontal tab. -/
def header_value_valid (bytes : List Nat) : Bool :=
  bytes.all (fun b => (32 ≤ b && b != 127) || b == 9)

/-- The construction error text for a missing or invalid API key. -/
def api_key_error : String :=
  "Please provide a valid API key. Get one at https://apilayer.com/marketplace/checkiday-api#pricing."

/-- `lib.rs` lines 23-50, `new_internal`.  The API key is its UTF-8 byte
sequence; `reqwest::Client::builder()...build()` and `Url::parse` are
external library calls whose outcomes are inputs of the model (`none`
standing for their failure). -/
def new_internal {Client Url : Type} (api_key : List Nat)
    (client_build : Option Client) (url_parse : Option Url) :
    Except String (HolidayEventApi Client Url) :=
  let api_key_header : Option (List Nat) :=
    if header_value_valid api_key then some api_key else none
  if api_key.isEmpty || api_key_header.isNone then Except.error api_key_error
  else
    match client_build with
    | none => Except.error "Error instantiating client."
    | some client =>
      match url_parse with
      | none => Except.error "Invalid base_url."
      | some base_url => Except.ok { client := client, base_url := base_url }

/-! ### The request executor (`lib.rs` lines 110-155) -/

/-- `StatusCode::is_success`: the 2xx range. -/
def is_success (status : Nat) : Bool :=
  200 ≤ status && status < 300

/-- `StatusCode::canonical_reason` of the `http` crate: the canonical
reason phrase of each registered status code, `none` otherwise. -/
def canonical_reason : Nat → Option String
  | 100 => some "Continue"
  | 101 => some "Switching Protocols"
  | 102 => some "Processing"
  | 200 => some "OK"
  | 201 => some "Created"
  | 202 => some "Accepted"
  | 203 => some "Non Authoritative Information"
  | 204 => some "No Content"
  | 205 => some "Reset Content"
  | 206 => some "Partial Content"
  | 207 => some "Multi-Status"
  | 208 => some "Already Reported"
  | 226 => some "IM Used"
  | 300 => some "Multiple Choices"
  | 301 => some "Moved Permanently"
  | 302 => some "Found"
  | 303 => some "See Other"
  | 304 => some "Not Modified"
  | 305 => some "Use Proxy"
  | 307 => some "Temporary Redirect"
  | 308 => some "Permanent Redirect"
  | 400 => some "Bad Request"
  | 401 => some "Unauthorized"
  | 402 => some "Payment Required"
  | 403 => some "Forbidden"
  | 404 => some "Not Found"
  | 405 => some "Method Not Allowed"
  | 406 => some "Not Acceptable"
  | 407 => some "Proxy Authentication Required"
  | 408 => some "Request Timeout"
  | 409 => some "Conflict"
  | 410 => some "Gone"
  | 411 => some "Length Required"
  | 412 => some "Precondition Failed"
  | 413 => some "Payload Too Large"
  | 414 => some "URI Too Long"
  | 415 => some "Unsupported Media Type"
  | 416 => some "Range Not Satisfiable"
  | 417 => some "Expectation Failed"
  | 418 => some ("I" ++ String.singleton (Char.ofNat 39) ++ "m a teapot")
  | 421 => some "Misdirected Request"
  | 422 => some "Unprocessable Entity"
  | 423 => some "Locked"
  | 424 => some "Failed Dependency"
  | 426 => some "Upgrade Required"
  | 428 => some "Precondition Required"
  | 429 => some "Too Many Requests"
  | 431 => some "Request Header Fields Too Large"
  | 451 => some "Unavailable For Legal Reasons"
  | 500 => some "Internal Server Error"
  | 501 => some "Not Implemented"
  | 502 => some "Bad Gateway"
  | 503 => some "Service Unavailable"
  | 504 => some "Gateway Timeout"
  | 505 => some "HTTP Version Not Supported"
  | 506 => some "Variant Also Negotiates"
  | 507 => some "Insufficient Storage"
  | 508 => some "Loop Detected"
  | 510 => some "Not Extended"
  | 511 => some "Network Authentication Required"
  | _ => none

/-- `StatusCode::as_str`: the numeric code rendered as its decimal
digits (every `StatusCode` lies in `100..=999`). -/
def status_as_str (status : Nat) : String :=
  toString status

/-- One step of deserializing `HashMap<String, String>`: every value of
the JSON object must itself be a string. -/
def string_map_step (m : List (String × String)) (kv : String × Json) :
    Except String (List (String × String)) :=
  match kv.2 with
  | Json.str s => Except.ok (mapInsert m kv.1 s)
  | _ => Except.error "invalid type, expected a string"

/-- serde `HashMap<String, String>`: a JSON object whose values are all
strings, collected by `HashMap::insert`. -/
def decode_string_map : Json → Except String (List (String × String))
  | Json.obj fields => fields.foldlM string_map_step []
  | _ => Except.error "invalid type, expected a map"

/-- `lib.rs` lines 122-135: the error value produced for a non-success
status.  `body` is the parsed body text (`none` when the text is not
valid JSON); `res.json::<HashMap<String, String>>()` fails exactly when
the text is not valid JSON or the value is not a flat string-to-string
map. -/
def error_from_response (status : Nat) (body : Option Json) : String :=
  let json : Option (List (String × String)) :=
    body.bind (fun j => (decode_string_map j).toOption)
  match json with
  | none => (canonical_reason status).getD (status_as_str status)
  | some m =>
    match mapGet m "error" with
    | none => (canonical_reason status).getD (status_as_str status)
    | some e =>
      if e = "" then (canonical_reason status).getD (status_as_str status)
      else e

/-- A received HTTP response: status code, headers (names with their raw
byte values, as in `reqwest`; `HeaderMap` lookup is case-insensitive) and
the JSON parse of the body text (`none` when the text is not valid
JSON). -/
structure HttpResponse where
  status : Nat
  headers : List (String × List Nat)
  body : Option Json

/-- ASCII lowercasing of one character, as `http::HeaderName` applies it
(header names are ASCII; only `A`-`Z` change). -/
def ascii_lower_char (c : Char) : Char :=
  if 65 ≤ c.toNat && c.toNat ≤ 90 then Char.ofNat (c.toNat + 32) else c

/-- ASCII lowercasing of a header name. -/
def ascii_lower (s : String) : String :=
  String.mk (s.data.map ascii_lower_char)

/-- `HeaderMap::get`: the first header whose name equals the looked-up
name case-insensitively (`HeaderName` lowercases ASCII names, so lookup
ignores ASCII case). -/
def header_get (headers : List (String × List Nat)) (name : String) : Option (List Nat) :=
  (headers.find? (fun p => ascii_lower p.1 == name)).map (fun p => p.2)

/-- `HeaderValue::to_str` accepts exactly the visible ASCII bytes
(32 to 126) and the horizontal tab. -/
def is_visible_ascii (b : Nat) : Bool :=
  (32 ≤ b && b < 127) || b == 9

/-- `HeaderValue::to_str().ok()`. -/
def header_to_str (bytes : List Nat) : Option String :=
  if bytes.all is_visible_ascii then some (String.mk (bytes.map Char.ofNat)) else none

/-- Rust `str::parse::<i32>()`: an optional sign, then at least one
ASCII digit, and the value must fit in `i32` (the Rust implementation
accumulates with overflow checks; because the accumulator grows
monotonically this is the same as one final bound check). -/
def parse_i32 (s : String) : Option Int :=
  let p : Bool × List Char :=
    match s.data with
    | '+' :: rest => (false, rest)
    | '-' :: rest => (true, rest)
    | rest => (false, rest)
  if p.2.isEmpty || !(p.2.all Char.isDigit) then none
  else
    let n : Nat := p.2.foldl (fun acc c => acc * 10 + (c.toNat - 48)) 0
    if p.1 then
      if n ≤ 2 ^ 31 then some (-(Int.ofNat n)) else none
    else
      if n < 2 ^ 31 then some (Int.ofNat n) else none

/-- `lib.rs` lines 142-151: the rate limit extracted from the response
headers; an absent header, a non-ASCII value or a failed integer parse
give `0`. -/
def rate_limit_from_headers (headers : List (String × List Nat)) : RateLimit :=
  { limit_month :=
      ((header_get headers "x-ratelimit-limit-month").bind
        (fun h => (header_to_str h).bind (fun s => parse_i32 s))).getD 0,
    remaining_month :=
      ((header_get headers "x-ratelimit-remaining-month").bind
        (fun h => (header_to_str h).bind (fun s => parse_i32 s))).getD 0 }

/-- `Response::json::<T>()`: the body text parses as JSON (the model
carries the parse outcome) and the value is deserialized into `T`. -/
def response_json {T : Type} (deserialize : Json → Except String T) :
    Option Json → Except String T
  | none => Except.error "error decoding response body"
  | some j => deserialize j

/-- The apostrophe, kept out of string literals. -/
def apos : String := String.singleton (Char.ofNat 39)

/-- The fixed prefix of a body-parse failure (`lib.rs` line 140). -/
def cant_parse_response : String := "Can" ++ apos ++ "t parse response: "

/-- `lib.rs` lines 110-155, `request`, from the point where a response
has been received (the transport-failure branch of line 119 is upstream
of the response and outside this model).  `deserialize` and
`set_rate_limit` are the `DeserializeOwned` and `RateLimited` bounds of
the type parameter `T`.  When the body text is not valid JSON the serde
diagnostic is summarised as `"error decoding response body"`. -/
def send_request {T : Type} (deserialize : Json → Except String T)
    (set_rate_limit : T → RateLimit → T) (res : HttpResponse) : Except String T :=
  if !(is_success res.status) then
    Except.error (error_from_response res.status res.body)
  else
    match response_json deserialize res.body with
    | Except.error e => Except.error (cant_parse_response ++ e)
    | Except.ok result => Except.ok (set_rate_limit result (rate_limit_from_headers res.headers))

/-- The UTF-8 bytes of a string of ASCII characters, for concrete header
values and API keys in the statements below. -/
def str_bytes (s : String) : List Nat :=
  s.data.map Char.toNat

/-! ### Helper lemmas -/

/-- Peeling one monadic bind of `Except` off a successful computation. -/
theorem except_bind_ok {ε α β : Type} {x : Except ε α} {f : α → Except ε β} {b : β}
    (h : x >>= f = Except.ok b) : ∃ a, x = Except.ok a ∧ f a = Except.ok b := by
  cases x with
  | error e => exact Except.noConfusion h
  | ok a => exact ⟨a, rfl, h⟩

/-- A freshly decoded `SearchResponse` carries the default rate limit. -/
theorem searchResponse_decode_rate_limit {j : Json} {r : SearchResponse}
    (h : SearchResponse.deserialize j = Except.ok r) : r.rate_limit = RateLimit.default := by
  cases j with
  | obj fields =>
    obtain ⟨q, _, h⟩ := except_bind_ok h
    obtain ⟨a, _, h⟩ := except_bind_ok h
    obtain ⟨es, _, h⟩ := except_bind_ok h
    cases h
    rfl
  | null => exact Except.noConfusion h
  | bool b => exact Except.noConfusion h
  | str s => exact Except.noConfusion h
  | numU n => exact Except.noConfusion h
  | numI i => exact Except.noConfusion h
  | numF => exact Except.noConfusion h
  | arr elems => exact Except.noConfusion h

/-- A freshly decoded `GetEventsResponse` carries the default rate limit. -/
theorem getEventsResponse_decode_rate_limit {j : Json} {r : GetEventsResponse}
    (h : GetEventsResponse.deserialize j = Except.ok r) : r.rate_limit = RateLimit.default := by
  cases j with
  | obj fields =>
    obtain ⟨a, _, h⟩ := except_bind_ok h
    obtain ⟨d, _, h⟩ := except_bind_ok h
    obtain ⟨tz, _, h⟩ := except_bind_ok h
    obtain ⟨es, _, h⟩ := except_bind_ok h
    obtain ⟨ms, _, h⟩ := except_bind_ok h
    obtain ⟨mo, _, h⟩ := except_bind_ok h
    cases h
    rfl
  | null => exact Except.noConfusion h
  | bool b => exact Except.noConfusion h
  | str s => exact Except.noConfusion h
  | numU n => exact Except.noConfusion h
  | numI i => exact Except.noConfusion h
  | numF => exact Except.noConfusion h
  | arr elems => exact Except.noConfusion h

/-- A freshly decoded `GetEventInfoResponse` carries the default rate limit. -/
theorem getEventInfoResponse_decode_rate_limit {j : Json} {r : GetEventInfoResponse}
    (h : GetEventInfoResponse.deserialize j = Except.ok r) : r.rate_limit = RateLimit.default := by
  cases j with
  | obj fields =>
    obtain ⟨ev, _, h⟩ := except_bind_ok h
    cases h
    rfl
  | null => exact Except.noConfusion h
  | bool b => exact Except.noConfusion h
  | str s => exact Except.noConfusion h
  | numU n => exact Except.noConfusion h
  | numI i => exact Except.noConfusion h
  | numF => exact Except.noConfusion h
  | arr elems => exact Except.noConfusion h

/-- Decomposition of a successful `send_request`: the status was a
success, the body text parsed, the body decoded, and the result is the
decoded value with the header rate limit attached. -/
theorem send_request_ok {T : Type} {deserialize : Json → Except String T}
    {set : T → RateLimit → T} {res : HttpResponse} {r : T}
    (h : send_request deserialize set res = Except.ok r) :
    is_success res.status = true ∧
      ∃ j a, res.body = some j ∧ deserialize j = Except.ok a ∧
        r = set a (rate_limit_from_headers res.headers) := by
  unfold send_request at h
  cases hs : is_success res.status with
  | false =>
    rw [hs] at h
    exact Except.noConfusion h
  | true =>
    rw [hs] at h
    simp only [Bool.not_true, Bool.false_eq_true, if_false] at h
    refine ⟨rfl, ?_⟩
    cases hbj : response_json deserialize res.body with
    | error e =>
      rw [hbj] at h
      exact Except.noConfusion h
    | ok a =>
      rw [hbj] at h
      cases h
      cases hb : res.body with
      | none =>
        rw [hb] at hbj
        exact Except.noConfusion hbj
      | some j =>
        rw [hb] at hbj
        exact ⟨j, a, rfl, hbj, rfl⟩

/-- On a non-success status the executor returns the classified HTTP
error, whatever the decoder and the rate-limit setter are. -/
theorem send_request_not_success {T : Type} (deserialize : Json → Except String T)
    (set : T → RateLimit → T) (res : HttpResponse)
    (h : is_success res.status = false) :
    send_request deserialize set res = Except.error (error_from_response res.status res.body) := by
  unfold send_request
  rw [h]
  rfl

/-- `header_get` returns the value of the first header whose name
matches case-insensitively. -/
theorem header_get_first {pre rest : List (String × List Nat)} {name key : String}
    {bytes : List Nat} (hpre : ∀ p ∈ pre, ¬ ascii_lower p.1 = key)
    (hname : ascii_lower name = key) :
    header_get (pre ++ (name, bytes) :: rest) key = some bytes := by
  induction pre with
  | nil =>
    unfold header_get
    rw [List.nil_append, List.find?_cons_of_pos]
    · rfl
    · exact beq_iff_eq.mpr hname
  | cons p ps ih =>
    unfold header_get at ih ⊢
    rw [List.cons_append, List.find?_cons_of_neg]
    · exact ih (fun q hq => hpre q (List.mem_cons_of_mem p hq))
    · simp [hpre p (List.mem_cons_self p ps)]

/-- Whatever `parse_i32` accepts lies in the `i32` range. -/
theorem parse_i32_range {s : String} {n : Int} (h : parse_i32 s = some n) :
    -(2 ^ 31) ≤ n ∧ n < 2 ^ 31 := by
  simp only [parse_i32, Int.ofNat_eq_natCast] at h
  split at h
  · exact Option.noConfusion h
  · split at h
    · split at h
      · cases h
        constructor <;> omega
      · exact Option.noConfusion h
    · split at h
      · cases h
        constructor <;> omega
      · exact Option.noConfusion h

/-- Folding the string-map step over fields one of which has a
non-string value always fails. -/
theorem string_map_fold_error {fields : List (String × Json)}
    (hbad : ∃ p ∈ fields, ∀ s, p.2 ≠ Json.str s) (m : List (String × String)) :
    fields.foldlM string_map_step m = Except.error "invalid type, expected a string" := by
  induction fields generalizing m with
  | nil =>
    rcases hbad with ⟨p, hp, _⟩
    exact absurd hp (List.not_mem_nil p)
  | cons kv rest ih =>
    rw [List.foldlM_cons]
    rcases hbad with ⟨p, hp, hps⟩
    obtain ⟨k, v⟩ := kv
    rcases List.mem_cons.mp hp with heq | hmem
    · subst heq
      cases v with
      | str s => exact absurd rfl (hps s)
      | null => rfl
      | bool b => rfl
      | numU n => rfl
      | numI i => rfl
      | numF => rfl
      | arr elems => rfl
      | obj fs => rfl
    · cases v with
      | str s =>
        show (Except.ok (mapInsert m k s) >>= fun m2 => rest.foldlM string_map_step m2) = _
        exact ih ⟨p, hmem, hps⟩ (mapInsert m k s)
      | null => rfl
      | bool b => rfl
      | numU n => rfl
      | numI i => rfl
      | numF => rfl
      | arr elems => rfl
      | obj fs => rfl

/-- When the error body parses as a string map with a non-empty `error`
field, that field is surfaced verbatim. -/
theorem error_from_response_error_field {status : Nat} {body : Option Json}
    {m : List (String × String)} {e : String}
    (hm : body.bind (fun j => (decode_string_map j).toOption) = some m)
    (he : mapGet m "error" = some e) (hne : e ≠ "") :
    error_from_response status body = e := by
  simp only [error_from_response, hm, he]
  rw [if_neg hne]

/-- When the error body does not parse as a string map, the canonical
reason phrase (or the numeric code) is surfaced. -/
theorem error_from_response_fallback {status : Nat} {body : Option Json}
    (hm : body.bind (fun j => (decode_string_map j).toOption) = none) :
    error_from_response status body = (canonical_reason status).getD (status_as_str status) := by
  simp only [error_from_response, hm]

/-- When the error body parses as a string map without a non-empty
`error` field, the canonical reason phrase (or the numeric code) is
surfaced. -/
theorem error_from_response_no_error_field {status : Nat} {body : Option Json}
    {m : List (String × String)}
    (hm : body.bind (fun j => (decode_string_map j).toOption) = some m)
    (he : mapGet m "error" = none ∨ mapGet m "error" = some "") :
    error_from_response status body = (canonical_reason status).getD (status_as_str status) := by
  rcases he with he | he
  · simp only [error_from_response, hm, he]
  · simp only [error_from_response, hm, he]
    simp

/-- C1.  For every call whose HTTP response has a non-success status, the
returned error is resolved in priority order: when the body parses as a
flat string-keyed map with a non-empty `error` field, the call fails with
exactly that string verbatim; otherwise it fails with the canonical
reason phrase of the status; and when the numeric status has no canonical
phrase it fails with the numeric code rendered as a string.  In
particular the phrase for 500 is `"Internal Server Error"` and 599 has no
phrase and renders as `"599"`. -/
theorem c1_http_error_priority {T : Type} (deserialize : Json → Except String T)
    (set : T → RateLimit → T) (res : HttpResponse)
    (h : is_success res.status = false) :
    (∀ m e, res.body.bind (fun j => (decode_string_map j).toOption) = some m →
        mapGet m "error" = some e → e ≠ "" →
        send_request deserialize set res = Except.error e)
    ∧ (res.body.bind (fun j => (decode_string_map j).toOption) = none →
        send_request deserialize set res =
          Except.error ((canonical_reason res.status).getD (status_as_str res.status)))
    ∧ (∀ m, res.body.bind (fun j => (decode_string_map j).toOption) = some m →
        mapGet m "error" = none ∨ mapGet m "error" = some "" →
        send_request deserialize set res =
          Except.error ((canonical_reason res.status).getD (status_as_str res.status)))
    ∧ canonical_reason 500 = some "Internal Server Error"
    ∧ canonical_reason 599 = none
    ∧ status_as_str 599 = "599" := by
  have hsend := send_request_not_success deserialize set res h
  refine ⟨?_, ?_, ?_, rfl, rfl, rfl⟩
  · intro m e hm he hne
    rw [hsend, error_from_response_error_field hm he hne]
  · intro hm
    rw [hsend, error_from_response_fallback hm]
  · intro m hm he
    rw [hsend, error_from_response_no_error_field hm he]

/-- C1, witnessed: an HTTP 401 with body `{"error":"MyError!"}` fails
with `"MyError!"`; an HTTP 500 with an unparseable body fails with
`"Internal Server Error"`; an HTTP 599 with an unparseable body fails
with `"599"`. -/
theorem c1_http_error_priority_witness :
    send_request SearchResponse.deserialize SearchResponse.set_rate_limit
      { status := 401, headers := [],
        body := some (Json.obj [("error", Json.str "MyError!")]) } = Except.error "MyError!"
    ∧ send_request SearchResponse.deserialize SearchResponse.set_rate_limit
      { status := 500, headers := [], body := none } = Except.error "Internal Server Error"
    ∧ send_request SearchResponse.deserialize SearchResponse.set_rate_limit
      { status := 599, headers := [], body := none } = Except.error "599" :=
  ⟨(c1_http_error_priority SearchResponse.deserialize SearchResponse.set_rate_limit
      { status := 401, headers := [],
        body := some (Json.obj [("error", Json.str "MyError!")]) } rfl).1
      [("error", "MyError!")] "MyError!" rfl rfl (by decide),
   (c1_http_error_priority SearchResponse.deserialize SearchResponse.set_rate_limit
      { status := 500, headers := [], body := none } rfl).2.1 rfl,
   (c1_http_error_priority SearchResponse.deserialize SearchResponse.set_rate_limit
      { status := 599, headers := [], body := none } rfl).2.1 rfl⟩

/-- C2, counterexample: the JSON integer `2 ^ 64 - 1` (a valid `u64`) is
decoded into the `Timestamp` variant, but its value is NOT preserved:
the decoded timestamp is `-1`. -/
theorem c2_preserve_counterexample :
    DateOrTimestamp.deserialize (Json.numU (2 ^ 64 - 1)) =
      Except.ok (DateOrTimestamp.Timestamp (-1))
    ∧ (-1 : Int) ≠ Int.ofNat (2 ^ 64 - 1) := by
  constructor
  · rfl
  · decide

/-- C2, amended: decoding yields `Date` exactly on JSON strings
(unchanged) and `Timestamp` exactly on JSON integers; the integer value
is preserved for every integer in the signed 64-bit range (negative
integers included), while an unsigned integer at or above `2 ^ 63` wraps
to its value minus `2 ^ 64`; every other JSON type (null, boolean,
float, array, object) is a decode error, and no conversion between the
two variants occurs. -/
theorem c2_date_or_timestamp_amended :
    (∀ s, DateOrTimestamp.deserialize (Json.str s) = Except.ok (DateOrTimestamp.Date s))
    ∧ (∀ i : Int, DateOrTimestamp.deserialize (Json.numI i) =
        Except.ok (DateOrTimestamp.Timestamp i))
    ∧ (∀ n : Nat, n < 2 ^ 63 →
        DateOrTimestamp.deserialize (Json.numU n) =
          Except.ok (DateOrTimestamp.Timestamp (Int.ofNat n)))
    ∧ (∀ n : Nat, 2 ^ 63 ≤ n →
        DateOrTimestamp.deserialize (Json.numU n) =
          Except.ok (DateOrTimestamp.Timestamp (Int.ofNat n - 2 ^ 64)))
    ∧ DateOrTimestamp.deserialize Json.null =
        Except.error "invalid type, expected OccurrenceDate as a number or string"
    ∧ (∀ b, DateOrTimestamp.deserialize (Json.bool b) =
        Except.error "invalid type, expected OccurrenceDate as a number or string")
    ∧ DateOrTimestamp.deserialize Json.numF =
        Except.error "invalid type, expected OccurrenceDate as a number or string"
    ∧ (∀ elems, DateOrTimestamp.deserialize (Json.arr elems) =
        Except.error "invalid type, expected OccurrenceDate as a number or string")
    ∧ (∀ fields, DateOrTimestamp.deserialize (Json.obj fields) =
        Except.error "invalid type, expected OccurrenceDate as a number or string") := by
  refine ⟨fun s => rfl, fun i => rfl, ?_, ?_, rfl, fun b => rfl, rfl, fun elems => rfl,
    fun fields => rfl⟩
  · intro n hn
    show Except.ok (DateOrTimestamp.Timestamp (u64_as_i64 n)) = _
    rw [u64_as_i64, if_pos hn]
  · intro n hn
    show Except.ok (DateOrTimestamp.Timestamp (u64_as_i64 n)) = _
    rw [u64_as_i64, if_neg (by omega)]

/-- C2 amended, witnessed on concrete values of every relevant shape. -/
theorem c2_date_or_timestamp_amended_witness :
    DateOrTimestamp.deserialize (Json.str "2025-05-02") =
      Except.ok (DateOrTimestamp.Date "2025-05-02")
    ∧ DateOrTimestamp.deserialize (Json.numI (-5)) =
      Except.ok (DateOrTimestamp.Timestamp (-5))
    ∧ DateOrTimestamp.deserialize (Json.numU 1700000000) =
      Except.ok (DateOrTimestamp.Timestamp (Int.ofNat 1700000000))
    ∧ DateOrTimestamp.deserialize (Json.numU (2 ^ 64 - 2)) =
      Except.ok (DateOrTimestamp.Timestamp (Int.ofNat (2 ^ 64 - 2) - 2 ^ 64)) :=
  ⟨c2_date_or_timestamp_amended.1 "2025-05-02",
   c2_date_or_timestamp_amended.2.1 (-5),
   c2_date_or_timestamp_amended.2.2.1 1700000000 (by norm_num),
   c2_date_or_timestamp_amended.2.2.2.1 (2 ^ 64 - 2) (by norm_num)⟩

/-- C9.  Decoding a JSON unsigned integer above `i64::MAX` does not
fail: the `as i64` cast makes the timestamp the two-complement
reinterpretation of the input modulo `2 ^ 64` — a negative value equal
to the input minus `2 ^ 64`. -/
theorem c9_u64_wraps_to_i64 (n : Nat) (h1 : 2 ^ 63 ≤ n) (h2 : n < 2 ^ 64) :
    DateOrTimestamp.deserialize (Json.numU n) =
      Except.ok (DateOrTimestamp.Timestamp (Int.ofNat n - 2 ^ 64))
    ∧ (Int.ofNat n - 2 ^ 64) % 2 ^ 64 = Int.ofNat n % 2 ^ 64
    ∧ -(2 ^ 63) ≤ Int.ofNat n - 2 ^ 64 ∧ Int.ofNat n - 2 ^ 64 < 0 := by
  refine ⟨?_, ?_, ?_, ?_⟩
  · show Except.ok (DateOrTimestamp.Timestamp (u64_as_i64 n)) = _
    rw [u64_as_i64, if_neg (by omega)]
  all_goals simp only [Int.ofNat_eq_natCast]
  all_goals omega

/-- C9, witnessed: `2 ^ 64 - 1` decodes to `Timestamp (-1)`. -/
theorem c9_u64_wraps_to_i64_witness :
    (DateOrTimestamp.deserialize (Json.numU (2 ^ 64 - 1)) =
      Except.ok (DateOrTimestamp.Timestamp (Int.ofNat (2 ^ 64 - 1) - 2 ^ 64)))
    ∧ Int.ofNat (2 ^ 64 - 1) - 2 ^ 64 = -1 :=
  ⟨(c9_u64_wraps_to_i64 (2 ^ 64 - 1) (by norm_num) (by norm_num)).1, by decide⟩

/-- C10.  On a non-success status the error body is parsed as a map from
strings to strings; a JSON object that carries a non-empty string
`error` field but also some field with a non-string value fails that
parse as a whole, so the caller receives the canonical reason phrase (or
the numeric code), not the `error` message. -/
theorem c10_mixed_error_body (status : Nat) (fields : List (String × Json)) (e : String)
    (hs : is_success status = false)
    (_he : ("error", Json.str e) ∈ fields) (_hne : e ≠ "")
    (hbad : ∃ p ∈ fields, ∀ s, p.2 ≠ Json.str s) :
    ∀ {T : Type} (deserialize : Json → Except String T) (set : T → RateLimit → T)
      (headers : List (String × List Nat)),
      send_request deserialize set
        { status := status, headers := headers, body := some (Json.obj fields) } =
        Except.error ((canonical_reason status).getD (status_as_str status)) := by
  intro T deserialize set headers
  have hmap : decode_string_map (Json.obj fields) =
      Except.error "invalid type, expected a string" := string_map_fold_error hbad []
  have hnone : (some (Json.obj fields)).bind (fun j => (decode_string_map j).toOption) = none := by
    simp [hmap, Except.toOption]
  rw [send_request_not_success _ _ _ hs, error_from_response_fallback hnone]

/-- C10, witnessed: HTTP 401 with body
`{"error":"MyError!","count":3}` fails with `"Unauthorized"`, not with
`"MyError!"`. -/
theorem c10_mixed_error_body_witness :
    send_request SearchResponse.deserialize SearchResponse.set_rate_limit
      { status := 401, headers := [],
        body := some (Json.obj [("error", Json.str "MyError!"), ("count", Json.numU 3)]) } =
      Except.error "Unauthorized" :=
  c10_mixed_error_body 401 [("error", Json.str "MyError!"), ("count", Json.numU 3)] "MyError!"
    rfl (List.mem_cons_self _ _) (by decide)
    ⟨("count", Json.numU 3), List.mem_cons_of_mem _ (List.mem_cons_self _ _),
      fun s hs => Json.noConfusion hs⟩
    SearchResponse.deserialize SearchResponse.set_rate_limit []

/-- C5.  A `get_event_info` call with an empty `id` and a `search` call
with an empty `query` return their fixed validation error; no request
(path and query parameters) is ever produced, so no network call is
attempted. -/
theorem c5_required_fields (ir : GetEventInfoRequest) (sr : SearchRequest) :
    (ir.id = "" → get_event_info ir = Except.error "Event id is required.")
    ∧ (sr.query = "" → search sr = Except.error "Search query is required.") := by
  constructor
  · intro h
    unfold get_event_info
    rw [if_pos h]
  · intro h
    unfold search
    rw [if_pos h]

/-- C5, witnessed on concrete empty-field requests. -/
theorem c5_required_fields_witness :
    get_event_info { id := "", start := none, end_ := none } =
      Except.error "Event id is required."
    ∧ search { query := "", adult := none } = Except.error "Search query is required." :=
  ⟨(c5_required_fields { id := "", start := none, end_ := none }
      { query := "", adult := none }).1 rfl,
   (c5_required_fields { id := "", start := none, end_ := none }
      { query := "", adult := none }).2 rfl⟩

/-- C4.  Every `get_events` and `search` parameter set contains the key
`adult` with the stringified caller boolean, `"false"` when unspecified;
and every optional parameter left unset (`timezone` and `date` for
`get_events`, `start` and `end` for `get_event_info`) is entirely absent
from the parameter set. -/
theorem c4_query_params (er : GetEventsRequest) (sr : SearchRequest) (ir : GetEventInfoRequest) :
    (∀ path params, get_events er = Except.ok (path, params) →
      mapGet params "adult" = some (rust_bool_to_string (er.adult.getD false))
      ∧ (er.adult = none → mapGet params "adult" = some "false")
      ∧ (er.timezone = none → mapGet params "timezone" = none)
      ∧ (er.date = none → mapGet params "date" = none))
    ∧ (∀ path params, search sr = Except.ok (path, params) →
      mapGet params "adult" = some (rust_bool_to_string (sr.adult.getD false))
      ∧ (sr.adult = none → mapGet params "adult" = some "false"))
    ∧ (∀ path params, get_event_info ir = Except.ok (path, params) →
      (ir.start = none → mapGet params "start" = none)
      ∧ (ir.end_ = none → mapGet params "end" = none)) := by
  refine ⟨?_, ?_, ?_⟩
  · intro path params h
    obtain ⟨d, a, tz⟩ := er
    cases a <;> cases tz <;> cases d <;> cases h <;>
      refine ⟨rfl, ?_, ?_, ?_⟩ <;> intro hx <;> first | rfl | exact Option.noConfusion hx
  · intro path params h
    obtain ⟨q, a⟩ := sr
    unfold search at h
    split at h
    · exact Except.noConfusion h
    · cases a <;> cases h <;>
        refine ⟨rfl, ?_⟩ <;> intro hx <;> first | rfl | exact Option.noConfusion hx
  · intro path params h
    obtain ⟨i, st, en⟩ := ir
    unfold get_event_info at h
    split at h
    · exact Except.noConfusion h
    · cases st <;> cases en <;> cases h <;>
        refine ⟨?_, ?_⟩ <;> intro hx <;> first | rfl | exact Option.noConfusion hx

/-- C4, witnessed: with all options unset, `get_events` emits exactly
`adult=false` (no `timezone`, no `date` key), `search` emits
`adult=false`, and `get_event_info` emits neither `start` nor `end`. -/
theorem c4_query_params_witness :
    mapGet [("adult", "false")] "adult" = some "false"
    ∧ mapGet [("adult", "false")] "timezone" = none
    ∧ mapGet [("adult", "false")] "date" = none
    ∧ mapGet [("query", "zucchini"), ("adult", "false")] "adult" = some "false"
    ∧ mapGet [("id", "abc")] "start" = none
    ∧ mapGet [("id", "abc")] "end" = none := by
  have h1 := (c4_query_params { date := none, adult := none, timezone := none }
    { query := "zucchini", adult := none } { id := "abc", start := none, end_ := none }).1
    "events" [("adult", "false")] rfl
  have h2 := (c4_query_params { date := none, adult := none, timezone := none }
    { query := "zucchini", adult := none } { id := "abc", start := none, end_ := none }).2.1
    "search" [("query", "zucchini"), ("adult", "false")] rfl
  have h3 := (c4_query_params { date := none, adult := none, timezone := none }
    { query := "zucchini", adult := none } { id := "abc", start := none, end_ := none }).2.2
    "event" [("id", "abc")] rfl
  exact ⟨h1.2.1 rfl, h1.2.2.1 rfl, h1.2.2.2 rfl, h2.2 rfl, h3.1 rfl, h3.2 rfl⟩

/-- `new_internal` written with its validation guard as one boolean
condition. -/
theorem new_internal_guard {Client Url : Type} (api_key : List Nat)
    (cb : Option Client) (up : Option Url) :
    new_internal api_key cb up =
      if api_key.isEmpty || !header_value_valid api_key then Except.error api_key_error
      else
        match cb with
        | none => Except.error "Error instantiating client."
        | some client =>
          match up with
          | none => Except.error "Invalid base_url."
          | some base_url => Except.ok { client := client, base_url := base_url } := by
  unfold new_internal
  cases hv : header_value_valid api_key <;> simp [hv]

/-- C8.  Construction succeeds exactly when the API key is non-empty and
a valid header value, the transport builds, and the base URL parses;
each failure yields its fixed descriptive error.  (The model is a pure
function — construction touches no network — and the resulting
configuration is a plain immutable value.) -/
theorem c8_construction {Client Url : Type} (api_key : List Nat)
    (client_build : Option Client) (url_parse : Option Url) :
    ((∃ api, new_internal api_key client_build url_parse = Except.ok api) ↔
      api_key ≠ [] ∧ header_value_valid api_key = true
        ∧ client_build.isSome = true ∧ url_parse.isSome = true)
    ∧ (api_key = [] ∨ header_value_valid api_key = false →
        new_internal api_key client_build url_parse = Except.error api_key_error)
    ∧ (api_key ≠ [] → header_value_valid api_key = true → client_build = none →
        new_internal api_key client_build url_parse = Except.error "Error instantiating client.")
    ∧ (∀ c, api_key ≠ [] → header_value_valid api_key = true → client_build = some c →
        url_parse = none →
        new_internal api_key client_build url_parse = Except.error "Invalid base_url.")
    ∧ (∀ c u, api_key ≠ [] → header_value_valid api_key = true → client_build = some c →
        url_parse = some u →
        new_internal api_key client_build url_parse =
          Except.ok { client := c, base_url := u }) := by
  cases api_key with
  | nil =>
    have hnil : new_internal ([] : List Nat) client_build url_parse =
        Except.error api_key_error := by
      rw [new_internal_guard]
      rfl
    refine ⟨?_, fun _ => hnil, ?_, ?_, ?_⟩
    · constructor
      · rintro ⟨api, hapi⟩
        rw [hnil] at hapi
        exact Except.noConfusion hapi
      · rintro ⟨h, _⟩
        exact absurd rfl h
    · intro h
      exact absurd rfl h
    · intro c h
      exact absurd rfl h
    · intro c u h
      exact absurd rfl h
  | cons b bs =>
    cases hv : header_value_valid (b :: bs) with
    | false =>
      have herr : new_internal (b :: bs) client_build url_parse =
          Except.error api_key_error := by
        rw [new_internal_guard, hv]
        rfl
      refine ⟨?_, fun _ => herr, ?_, ?_, ?_⟩
      · constructor
        · rintro ⟨api, hapi⟩
          rw [herr] at hapi
          exact Except.noConfusion hapi
        · rintro ⟨_, hval, _⟩
          exact Bool.noConfusion hval
      · intro _ hval _
        exact Bool.noConfusion hval
      · intro c _ hval _ _
        exact Bool.noConfusion hval
      · intro c u _ hval _ _
        exact Bool.noConfusion hval
    | true =>
      have heval : new_internal (b :: bs) client_build url_parse =
          match client_build with
          | none => Except.error "Error instantiating client."
          | some client =>
            match url_parse with
            | none => Except.error "Invalid base_url."
            | some base_url => Except.ok { client := client, base_url := base_url } := by
        rw [new_internal_guard, hv]
        rfl
      cases client_build with
      | none =>
        refine ⟨?_, ?_, fun _ _ _ => heval, ?_, ?_⟩
        · constructor
          · rintro ⟨api, hapi⟩
            rw [heval] at hapi
            exact Except.noConfusion hapi
          · rintro ⟨_, _, hcb, _⟩
            exact Bool.noConfusion hcb
        · rintro (h | h)
          · exact List.noConfusion h
          · exact Bool.noConfusion h
        · intro c _ _ hcb _
          exact Option.noConfusion hcb
        · intro c u _ _ hcb _
          exact Option.noConfusion hcb
      | some c =>
        cases url_parse with
        | none =>
          refine ⟨?_, ?_, ?_, fun c2 _ _ hc _ => heval, ?_⟩
          · constructor
            · rintro ⟨api, hapi⟩
              rw [heval] at hapi
              exact Except.noConfusion hapi
            · rintro ⟨_, _, _, hup⟩
              exact Bool.noConfusion hup
          · rintro (h | h)
            · exact List.noConfusion h
            · exact Bool.noConfusion h
          · intro _ _ hcb
            exact Option.noConfusion hcb
          · intro c2 u _ _ _ hup
            exact Option.noConfusion hup
        | some u =>
          refine ⟨?_, ?_, ?_, ?_, fun c2 u2 _ _ hc hu => ?_⟩
          · exact ⟨fun _ => ⟨List.cons_ne_nil b bs, rfl, rfl, rfl⟩,
              fun _ => ⟨{ client := c, base_url := u }, heval⟩⟩
          · rintro (h | h)
            · exact List.noConfusion h
            · exact Bool.noConfusion h
          · intro _ _ hcb
            exact Option.noConfusion hcb
          · intro c2 _ _ _ hup
            exact Option.noConfusion hup
          · cases hc
            cases hu
            exact heval

/-- C8, witnessed: the key `"abc123"` with both library calls succeeding
constructs the client; the empty key and an unparseable base URL give
their fixed errors. -/
theorem c8_construction_witness :
    new_internal (str_bytes "abc123") (some (0 : Nat)) (some (0 : Nat)) =
      Except.ok { client := 0, base_url := 0 }
    ∧ new_internal ([] : List Nat) (some (0 : Nat)) (some (0 : Nat)) =
      Except.error api_key_error
    ∧ new_internal (str_bytes "abc123") (some (0 : Nat)) (none : Option Nat) =
      Except.error "Invalid base_url." :=
  ⟨(c8_construction (str_bytes "abc123") (some 0) (some 0)).2.2.2.2 0 0
      (by decide) (by decide) rfl rfl,
   (c8_construction ([] : List Nat) (some (0 : Nat)) (some (0 : Nat))).2.1 (Or.inl rfl),
   (c8_construction (str_bytes "abc123") (some (0 : Nat)) (none : Option Nat)).2.2.2.1 0
      (by decide) (by decide) rfl rfl⟩

/-- C3.  For every call with a success status the two rate-limit headers
are looked up case-insensitively: the rate limit attached to the
returned response is exactly `rate_limit_from_headers`, whose
`limit_month` and `remaining_month` are the integer parse of the first
case-insensitive match of `x-ratelimit-limit-month` resp.
`x-ratelimit-remaining-month`, and `0` for an absent header or a failed
parse; whether the call succeeds never depends on the headers. -/
theorem c3_rate_limit_headers (res : HttpResponse) (hs : is_success res.status = true) :
    (∀ r : GetEventsResponse, send_request GetEventsResponse.deserialize
        GetEventsResponse.set_rate_limit res = Except.ok r →
        r.rate_limit = rate_limit_from_headers res.headers)
    ∧ (∀ r : GetEventInfoResponse, send_request GetEventInfoResponse.deserialize
        GetEventInfoResponse.set_rate_limit res = Except.ok r →
        r.rate_limit = rate_limit_from_headers res.headers)
    ∧ (∀ r : SearchResponse, send_request SearchResponse.deserialize
        SearchResponse.set_rate_limit res = Except.ok r →
        r.rate_limit = rate_limit_from_headers res.headers)
    ∧ (∀ headers2, (send_request SearchResponse.deserialize SearchResponse.set_rate_limit
          { res with headers := headers2 }).isOk
        = (send_request SearchResponse.deserialize SearchResponse.set_rate_limit res).isOk)
    ∧ (∀ pre rest name bytes s n,
        res.headers = pre ++ (name, bytes) :: rest →
        (∀ p ∈ pre, ¬ ascii_lower p.1 = "x-ratelimit-limit-month") →
        ascii_lower name = "x-ratelimit-limit-month" →
        header_to_str bytes = some s → parse_i32 s = some n →
        (rate_limit_from_headers res.headers).limit_month = n)
    ∧ (∀ pre rest name bytes s n,
        res.headers = pre ++ (name, bytes) :: rest →
        (∀ p ∈ pre, ¬ ascii_lower p.1 = "x-ratelimit-remaining-month") →
        ascii_lower name = "x-ratelimit-remaining-month" →
        header_to_str bytes = some s → parse_i32 s = some n →
        (rate_limit_from_headers res.headers).remaining_month = n)
    ∧ (header_get res.headers "x-ratelimit-limit-month" = none ∨
        (∃ bytes, header_get res.headers "x-ratelimit-limit-month" = some bytes ∧
          (header_to_str bytes).bind parse_i32 = none) →
        (rate_limit_from_headers res.headers).limit_month = 0)
    ∧ (header_get res.headers "x-ratelimit-remaining-month" = none ∨
        (∃ bytes, header_get res.headers "x-ratelimit-remaining-month" = some bytes ∧
          (header_to_str bytes).bind parse_i32 = none) →
        (rate_limit_from_headers res.headers).remaining_month = 0) := by
  obtain ⟨status, headers, body⟩ := res
  refine ⟨?_, ?_, ?_, ?_, ?_, ?_, ?_, ?_⟩
  · intro r h
    obtain ⟨_, j, a, hb, hd, hr⟩ := send_request_ok h
    rw [hr]
    rfl
  · intro r h
    obtain ⟨_, j, a, hb, hd, hr⟩ := send_request_ok h
    rw [hr]
    rfl
  · intro r h
    obtain ⟨_, j, a, hb, hd, hr⟩ := send_request_ok h
    rw [hr]
    rfl
  · intro headers2
    unfold send_request
    rw [hs]
    simp only [Bool.not_true, Bool.false_eq_true, if_false]
    cases response_json SearchResponse.deserialize body <;> rfl
  · intro pre rest name bytes s n hhead hpre hname hstr hparse
    simp only at hhead
    subst hhead
    unfold rate_limit_from_headers
    rw [header_get_first hpre hname]
    simp [hstr, hparse]
  · intro pre rest name bytes s n hhead hpre hname hstr hparse
    simp only at hhead
    subst hhead
    unfold rate_limit_from_headers
    rw [header_get_first hpre hname]
    simp [hstr, hparse]
  · rintro (habs | ⟨bytes, hget, hparse⟩)
    · unfold rate_limit_from_headers
      simp only at habs
      rw [habs]
      rfl
    · unfold rate_limit_from_headers
      simp only at hget
      rw [hget]
      simp [hparse]
  · rintro (habs | ⟨bytes, hget, hparse⟩)
    · unfold rate_limit_from_headers
      simp only at habs
      rw [habs]
      rfl
    · unfold rate_limit_from_headers
      simp only at hget
      rw [hget]
      simp [hparse]

/-- C3, witnessed: headers `X-RateLimit-Limit-Month: 100` and
`x-ratelimit-remaining-month: 88` (mixed name case) give the fields 100
and 88; a malformed value gives 0 for both fields. -/
theorem c3_rate_limit_headers_witness :
    (rate_limit_from_headers [("X-RateLimit-Limit-Month", str_bytes "100"),
      ("x-ratelimit-remaining-month", str_bytes "88")]).limit_month = 100
    ∧ (rate_limit_from_headers [("X-RateLimit-Limit-Month", str_bytes "100"),
      ("x-ratelimit-remaining-month", str_bytes "88")]).remaining_month = 88
    ∧ (rate_limit_from_headers [("x-ratelimit-limit-month", str_bytes "many")]).limit_month = 0
    ∧ (rate_limit_from_headers [("x-ratelimit-limit-month", str_bytes "many")]).remaining_month
      = 0 := by
  have h := c3_rate_limit_headers
    { status := 200,
      headers := [("X-RateLimit-Limit-Month", str_bytes "100"),
        ("x-ratelimit-remaining-month", str_bytes "88")],
      body := none } rfl
  have h2 := c3_rate_limit_headers
    { status := 200, headers := [("x-ratelimit-limit-month", str_bytes "many")],
      body := none } rfl
  refine ⟨?_, ?_, ?_, ?_⟩
  · exact h.2.2.2.2.1 [] [("x-ratelimit-remaining-month", str_bytes "88")]
      "X-RateLimit-Limit-Month" (str_bytes "100") "100" 100 rfl
      (fun p hp => absurd hp (List.not_mem_nil p)) (by decide) rfl (by decide)
  · exact h.2.2.2.2.2.1 [("X-RateLimit-Limit-Month", str_bytes "100")] []
      "x-ratelimit-remaining-month" (str_bytes "88") "88" 88 rfl
      (by decide) (by decide) rfl (by decide)
  · exact h2.2.2.2.2.2.2.1 (Or.inr ⟨str_bytes "many", rfl, by decide⟩)
  · exact h2.2.2.2.2.2.2.2 (Or.inl rfl)

/-- C6.  The rate limit is never taken from the JSON body: a
`rate_limit` key in the body is ignored by every response decoder and a
freshly decoded response carries the zero default; the executor installs
the header-derived rate limit exactly once, via `set_rate_limit`, after
a successful body decode and before returning; and `set_rate_limit`
changes only the `rate_limit` field, leaving every body-derived field
unchanged. -/
theorem c6_rate_limit_out_of_band :
    (∀ j r, GetEventsResponse.deserialize j = Except.ok r → r.rate_limit = RateLimit.default)
    ∧ (∀ j r, GetEventInfoResponse.deserialize j = Except.ok r → r.rate_limit = RateLimit.default)
    ∧ (∀ j r, SearchResponse.deserialize j = Except.ok r → r.rate_limit = RateLimit.default)
    ∧ (∀ (r : GetEventsResponse) rl, (r.set_rate_limit rl).adult = r.adult
        ∧ (r.set_rate_limit rl).date = r.date
        ∧ (r.set_rate_limit rl).timezone = r.timezone
        ∧ (r.set_rate_limit rl).events = r.events
        ∧ (r.set_rate_limit rl).multiday_starting = r.multiday_starting
        ∧ (r.set_rate_limit rl).multiday_ongoing = r.multiday_ongoing
        ∧ (r.set_rate_limit rl).rate_limit = rl)
    ∧ (∀ (r : GetEventInfoResponse) rl, (r.set_rate_limit rl).event = r.event
        ∧ (r.set_rate_limit rl).rate_limit = rl)
    ∧ (∀ (r : SearchResponse) rl, (r.set_rate_limit rl).query = r.query
        ∧ (r.set_rate_limit rl).adult = r.adult
        ∧ (r.set_rate_limit rl).events = r.events
        ∧ (r.set_rate_limit rl).rate_limit = rl)
    ∧ (∀ res (r : GetEventsResponse),
        send_request GetEventsResponse.deserialize GetEventsResponse.set_rate_limit res =
          Except.ok r →
        ∃ j r0, res.body = some j ∧ GetEventsResponse.deserialize j = Except.ok r0
          ∧ r0.rate_limit = RateLimit.default
          ∧ r = r0.set_rate_limit (rate_limit_from_headers res.headers))
    ∧ (∀ res (r : GetEventInfoResponse),
        send_request GetEventInfoResponse.deserialize GetEventInfoResponse.set_rate_limit res =
          Except.ok r →
        ∃ j r0, res.body = some j ∧ GetEventInfoResponse.deserialize j = Except.ok r0
          ∧ r0.rate_limit = RateLimit.default
          ∧ r = r0.set_rate_limit (rate_limit_from_headers res.headers))
    ∧ (∀ res (r : SearchResponse),
        send_request SearchResponse.deserialize SearchResponse.set_rate_limit res =
          Except.ok r →
        ∃ j r0, res.body = some j ∧ SearchResponse.deserialize j = Except.ok r0
          ∧ r0.rate_limit = RateLimit.default
          ∧ r = r0.set_rate_limit (rate_limit_from_headers res.headers)) := by
  refine ⟨fun j r h => getEventsResponse_decode_rate_limit h,
    fun j r h => getEventInfoResponse_decode_rate_limit h,
    fun j r h => searchResponse_decode_rate_limit h,
    fun r rl => ⟨rfl, rfl, rfl, rfl, rfl, rfl, rfl⟩,
    fun r rl => ⟨rfl, rfl⟩,
    fun r rl => ⟨rfl, rfl, rfl, rfl⟩, ?_, ?_, ?_⟩
  · intro res r h
    obtain ⟨_, j, a, hb, hd, hr⟩ := send_request_ok h
    exact ⟨j, a, hb, hd, getEventsResponse_decode_rate_limit hd, hr⟩
  · intro res r h
    obtain ⟨_, j, a, hb, hd, hr⟩ := send_request_ok h
    exact ⟨j, a, hb, hd, getEventInfoResponse_decode_rate_limit hd, hr⟩
  · intro res r h
    obtain ⟨_, j, a, hb, hd, hr⟩ := send_request_ok h
    exact ⟨j, a, hb, hd, searchResponse_decode_rate_limit hd, hr⟩

/-- C6, witnessed: a body that even carries a `rate_limit` key decodes
to the zero default; the setter on a concrete response changes only the
rate limit; a concrete successful call factors through decode then
`set_rate_limit`. -/
theorem c6_rate_limit_out_of_band_witness :
    ({ query := "q", adult := false, events := [], rate_limit := RateLimit.default } : SearchResponse).rate_limit = RateLimit.default
    ∧ (({ query := "q", adult := false, events := [], rate_limit := RateLimit.default } : SearchResponse).set_rate_limit { limit_month := 3, remaining_month := 1 }).query = "q"
    ∧ (({ query := "q", adult := false, events := [], rate_limit := RateLimit.default } : SearchResponse).set_rate_limit { limit_month := 3, remaining_month := 1 }).rate_limit = { limit_month := 3, remaining_month := 1 }
    ∧ (∃ j r0, (some (Json.obj [("query", Json.str "q"), ("adult", Json.bool false), ("events", Json.arr []), ("rate_limit", Json.obj [("limit_month", Json.numU 7)])]) : Option Json) = some j
        ∧ SearchResponse.deserialize j = Except.ok r0
        ∧ r0.rate_limit = RateLimit.default
        ∧ ({ query := "q", adult := false, events := [], rate_limit := { limit_month := 100, remaining_month := 0 } } : SearchResponse)
          = r0.set_rate_limit (rate_limit_from_headers [("x-ratelimit-limit-month", str_bytes "100")])) := by
  refine ⟨?_, ?_, ?_, ?_⟩
  · exact c6_rate_limit_out_of_band.2.2.1
      (Json.obj [("query", Json.str "q"), ("adult", Json.bool false), ("events", Json.arr []), ("rate_limit", Json.obj [("limit_month", Json.numU 7)])])
      { query := "q", adult := false, events := [], rate_limit := RateLimit.default } rfl
  · exact (c6_rate_limit_out_of_band.2.2.2.2.2.1
      { query := "q", adult := false, events := [], rate_limit := RateLimit.default }
      { limit_month := 3, remaining_month := 1 }).1
  · exact (c6_rate_limit_out_of_band.2.2.2.2.2.1
      { query := "q", adult := false, events := [], rate_limit := RateLimit.default }
      { limit_month := 3, remaining_month := 1 }).2.2.2
  · exact c6_rate_limit_out_of_band.2.2.2.2.2.2.2.2
      { status := 200, headers := [("x-ratelimit-limit-month", str_bytes "100")], body := some (Json.obj [("query", Json.str "q"), ("adult", Json.bool false), ("events", Json.arr []), ("rate_limit", Json.obj [("limit_month", Json.numU 7)])]) }
      { query := "q", adult := false, events := [], rate_limit := { limit_month := 100, remaining_month := 0 } } rfl

/-- Bounds and provenance of one month header value: the extracted
integer lies in the `i32` range, and a negative value can only come from
a header that is present and parses to exactly that integer. -/
theorem month_value_bounds (hg : Option (List Nat)) :
    (-(2 ^ 31) ≤ ((hg.bind (fun h => (header_to_str h).bind (fun s => parse_i32 s))).getD 0)
      ∧ ((hg.bind (fun h => (header_to_str h).bind (fun s => parse_i32 s))).getD 0) < 2 ^ 31)
    ∧ (((hg.bind (fun h => (header_to_str h).bind (fun s => parse_i32 s))).getD 0) < 0 →
        ∃ bytes s, hg = some bytes ∧ header_to_str bytes = some s
          ∧ parse_i32 s =
            some ((hg.bind (fun h => (header_to_str h).bind (fun s => parse_i32 s))).getD 0)) := by
  cases hg with
  | none =>
    exact ⟨⟨by decide, by decide⟩, fun hneg => absurd hneg (by decide)⟩
  | some bytes =>
    cases hts : header_to_str bytes with
    | none =>
      have hv : (((some bytes).bind
          (fun h => (header_to_str h).bind (fun s => parse_i32 s))).getD 0) = 0 := by
        simp [hts]
      rw [hv]
      exact ⟨⟨by decide, by decide⟩, fun hneg => absurd hneg (by decide)⟩
    | some s =>
      cases hp : parse_i32 s with
      | none =>
        have hv : (((some bytes).bind
            (fun h => (header_to_str h).bind (fun s => parse_i32 s))).getD 0) = 0 := by
          simp [hts, hp]
        rw [hv]
        exact ⟨⟨by decide, by decide⟩, fun hneg => absurd hneg (by decide)⟩
      | some n =>
        have hrange := parse_i32_range hp
        have hv : (((some bytes).bind
            (fun h => (header_to_str h).bind (fun s => parse_i32 s))).getD 0) = n := by
          simp [hts, hp]
        rw [hv]
        exact ⟨⟨hrange.1, hrange.2⟩, fun _ => ⟨bytes, s, rfl, hts, hp⟩⟩

/-- C7, counterexample: with response header
`x-ratelimit-limit-month: -5` a successful call returns a response whose
`limit_month` is the negative integer `-5`. -/
theorem c7_nonnegative_counterexample :
    send_request SearchResponse.deserialize SearchResponse.set_rate_limit
      { status := 200, headers := [("x-ratelimit-limit-month", str_bytes "-5")], body := some (Json.obj [("query", Json.str "q"), ("adult", Json.bool false), ("events", Json.arr [])]) } =
      Except.ok { query := "q", adult := false, events := [], rate_limit := { limit_month := -5, remaining_month := 0 } }
    ∧ ({ limit_month := -5, remaining_month := 0 } : RateLimit).limit_month < 0 := by
  constructor
  · rfl
  · decide

/-- C7, amended: for every successfully returned response both
rate-limit fields are integers in the `i32` range; each field is
non-negative unless its header is present, readable and parses to
exactly that negative integer (absent or unparsable headers give 0 and
non-negative header values give non-negative fields). -/
theorem c7_rate_limit_range_amended (res : HttpResponse) :
    (∀ r : GetEventsResponse, send_request GetEventsResponse.deserialize
        GetEventsResponse.set_rate_limit res = Except.ok r →
        (-(2 ^ 31) ≤ r.rate_limit.limit_month ∧ r.rate_limit.limit_month < 2 ^ 31
          ∧ -(2 ^ 31) ≤ r.rate_limit.remaining_month ∧ r.rate_limit.remaining_month < 2 ^ 31)
        ∧ (r.rate_limit.limit_month < 0 →
            ∃ bytes s, header_get res.headers "x-ratelimit-limit-month" = some bytes
              ∧ header_to_str bytes = some s ∧ parse_i32 s = some r.rate_limit.limit_month)
        ∧ (r.rate_limit.remaining_month < 0 →
            ∃ bytes s, header_get res.headers "x-ratelimit-remaining-month" = some bytes
              ∧ header_to_str bytes = some s ∧ parse_i32 s = some r.rate_limit.remaining_month))
    ∧ (∀ r : GetEventInfoResponse, send_request GetEventInfoResponse.deserialize
        GetEventInfoResponse.set_rate_limit res = Except.ok r →
        (-(2 ^ 31) ≤ r.rate_limit.limit_month ∧ r.rate_limit.limit_month < 2 ^ 31
          ∧ -(2 ^ 31) ≤ r.rate_limit.remaining_month ∧ r.rate_limit.remaining_month < 2 ^ 31)
        ∧ (r.rate_limit.limit_month < 0 →
            ∃ bytes s, header_get res.headers "x-ratelimit-limit-month" = some bytes
              ∧ header_to_str bytes = some s ∧ parse_i32 s = some r.rate_limit.limit_month)
        ∧ (r.rate_limit.remaining_month < 0 →
            ∃ bytes s, header_get res.headers "x-ratelimit-remaining-month" = some bytes
              ∧ header_to_str bytes = some s ∧ parse_i32 s = some r.rate_limit.remaining_month))
    ∧ (∀ r : SearchResponse, send_request SearchResponse.deserialize
        SearchResponse.set_rate_limit res = Except.ok r →
        (-(2 ^ 31) ≤ r.rate_limit.limit_month ∧ r.rate_limit.limit_month < 2 ^ 31
          ∧ -(2 ^ 31) ≤ r.rate_limit.remaining_month ∧ r.rate_limit.remaining_month < 2 ^ 31)
        ∧ (r.rate_limit.limit_month < 0 →
            ∃ bytes s, header_get res.headers "x-ratelimit-limit-month" = some bytes
              ∧ header_to_str bytes = some s ∧ parse_i32 s = some r.rate_limit.limit_month)
        ∧ (r.rate_limit.remaining_month < 0 →
            ∃ bytes s, header_get res.headers "x-ratelimit-remaining-month" = some bytes
              ∧ header_to_str bytes = some s ∧ parse_i32 s = some r.rate_limit.remaining_month)) := by
  refine ⟨?_, ?_, ?_⟩ <;> intro r h <;>
    obtain ⟨_, j, a, hb, hd, hr⟩ := send_request_ok h <;>
    subst hr <;>
    exact ⟨⟨(month_value_bounds _).1.1, (month_value_bounds _).1.2,
        (month_value_bounds _).1.1, (month_value_bounds _).1.2⟩,
      fun hneg => (month_value_bounds _).2 hneg,
      fun hneg => (month_value_bounds _).2 hneg⟩

/-- C7 amended, witnessed: a successful call with headers
`x-ratelimit-limit-month: 100` and no remaining header yields fields
inside the `i32` range. -/
theorem c7_rate_limit_range_amended_witness :
    -(2 ^ 31) ≤ ({ query := "q", adult := false, events := [], rate_limit := { limit_month := 100, remaining_month := 0 } } : SearchResponse).rate_limit.limit_month
    ∧ ({ query := "q", adult := false, events := [], rate_limit := { limit_month := 100, remaining_month := 0 } } : SearchResponse).rate_limit.limit_month < 2 ^ 31 :=
  ⟨((c7_rate_limit_range_amended
      { status := 200, headers := [("x-ratelimit-limit-month", str_bytes "100")], body := some (Json.obj [("query", Json.str "q"), ("adult", Json.bool false), ("events", Json.arr [])]) }).2.2
      { query := "q", adult := false, events := [], rate_limit := { limit_month := 100, remaining_month := 0 } } rfl).1.1,
   ((c7_rate_limit_range_amended
      { status := 200, headers := [("x-ratelimit-limit-month", str_bytes "100")], body := some (Json.obj [("query", Json.str "q"), ("adult", Json.bool false), ("events", Json.arr [])]) }).2.2
      { query := "q", adult := false, events := [], rate_limit := { limit_month := 100, remaining_month := 0 } } rfl).1.2.1⟩
